import Mathlib

/-!
Formal model of the weewx-alarm service (src/bin/user/alarm.py, version 4.0.4).

The module watches converted archive records, evaluates each alarm rule
against the record, tracks a per-alarm state across records, and sends an
email when the state changes.  The Python functions `Alarm.assess`,
`Alarm.eval_rule`, `Alarm.eval_string`, `AlarmSvc.__init__`,
`AlarmSvc.parse_alarm`, `AlarmSvc.parse_on_sect` and `Mailer.send` are
embedded below as pure Lean functions.  External effects (Python `eval` of
the rule string, the SMTP transport, the timestamp formatter) are supplied
as explicit inputs; everything the repository's own code decides is
computed by the definitions.
-/

/-- Python run-time values that may appear in a converted archive record or
result from evaluating an alarm rule.  Floating point measurement values are
not needed by any theorem in this file and are represented as integers or
strings. -/
inductive PyVal where
  | pyNone : PyVal
  | pyBool : Bool → PyVal
  | pyInt : Int → PyVal
  | pyStr : String → PyVal
  deriving DecidableEq

/-- Classes of Python exceptions, distinguished the same way the except
clauses of `Alarm.eval_rule` and `Alarm.eval_string` distinguish them:
NameError, the (ValueError, TypeError, KeyError) group, and everything else.
The class only ever influences which log line is produced, never control
flow, so the classification of modelled library failures is coarse. -/
inductive PyErr where
  | nameErr : PyErr
  | typeValueErr : PyErr
  | otherErr : PyErr
  deriving DecidableEq

/-- Python `==` on the modelled values: `True == 1` and `False == 0` hold,
`None` is equal only to itself, values of unrelated types compare unequal. -/
def pyEq : PyVal → PyVal → Bool
  | PyVal.pyNone, PyVal.pyNone => true
  | PyVal.pyBool a, PyVal.pyBool b => a == b
  | PyVal.pyBool a, PyVal.pyInt n => (if a then (1 : Int) else 0) == n
  | PyVal.pyInt n, PyVal.pyBool a => n == (if a then (1 : Int) else 0)
  | PyVal.pyInt m, PyVal.pyInt n => m == n
  | PyVal.pyStr s, PyVal.pyStr t => s == t
  | _, _ => false

/-- Python truthiness of the modelled values, as used by
`params = self.on_true_params if new_state else self.on_false_params`. -/
def pyTruthy : PyVal → Bool
  | PyVal.pyNone => false
  | PyVal.pyBool b => b
  | PyVal.pyInt n => n != 0
  | PyVal.pyStr s => s != ""

/-- Python `str()` of the modelled values, as produced when a value is
substituted for a `\x7bname\x7d` placeholder by `str.format_map`. -/
def pyStrOf : PyVal → String
  | PyVal.pyNone => "None"
  | PyVal.pyBool b => if b then "True" else "False"
  | PyVal.pyInt n => toString n
  | PyVal.pyStr s => s

/-- A Python dict used as an evaluation or rendering context, represented as
an association list in which the first matching key wins.  The merge
`\x7b**a, **b\x7d` of the source is therefore represented by listing the
entries of `b` in front of the entries of `a`. -/
abbrev Ctx : Type := List (String × PyVal)

/-- Dict lookup: first binding for the key. -/
def ctxGet : Ctx → String → Option PyVal
  | [], _ => none
  | (k2, v) :: rest, k => if k2 = k then some v else ctxGet rest k

/-- Opening brace character, written by code point to keep brace characters
out of string literals. -/
def braceL : Char := Char.ofNat 123

/-- Closing brace character. -/
def braceR : Char := Char.ofNat 125

/-- Single-quote character. -/
def quoteCh : Char := Char.ofNat 39

/-- Value of a hexadecimal digit character, if it is one. -/
def hexDigit : Char → Option Nat := fun c =>
  if '0' ≤ c ∧ c ≤ '9' then some (c.toNat - 48)
  else if 'a' ≤ c ∧ c ≤ 'f' then some (c.toNat - 87)
  else if 'A' ≤ c ∧ c ≤ 'F' then some (c.toNat - 55)
  else none

/-- Whether a character is an octal digit. -/
def isOctal (c : Char) : Bool := '0' ≤ c && c ≤ '7'

/-- Value of an octal digit character. -/
def octVal (c : Char) : Nat := c.toNat - 48

/-- Split the character list at the first closing brace, returning the field
name before it and the remainder after it. -/
def splitField : List Char → Option (List Char × List Char)
  | [] => none
  | c :: rest =>
    if c = braceR then some ([], rest)
    else
      match splitField rest with
      | none => none
      | some (nm, rem) => some (c :: nm, rem)

/-- Core of Python `str.format_map` restricted to the feature set this
module's templates use: plain `\x7bname\x7d` fields looked up in the context
dict (a missing name raises KeyError), doubled braces denoting literal
braces, and an error for a lone unmatched brace (ValueError).  Conversion
and format specifications (`\x7bname!r:spec\x7d`) and attribute or index
access inside a field are not modelled; the whole text between the braces is
treated as the lookup key.  The fuel argument only serves to make the
recursion structural; `fuel = length + 1` always suffices because every step
consumes at least one character. -/
def fmtGo (ctx : Ctx) : Nat → List Char → Except PyErr (List Char)
  | 0, _ => Except.error PyErr.otherErr
  | _, [] => Except.ok []
  | fuel + 1, c :: rest =>
    if c = braceL then
      match rest with
      | [] => Except.error PyErr.typeValueErr
      | c2 :: rest2 =>
        if c2 = braceL then
          match fmtGo ctx fuel rest2 with
          | Except.error e => Except.error e
          | Except.ok out => Except.ok (braceL :: out)
        else
          match splitField (c2 :: rest2) with
          | none => Except.error PyErr.typeValueErr
          | some (nm, rem) =>
            match ctxGet ctx (String.mk nm) with
            | none => Except.error PyErr.typeValueErr
            | some v =>
              match fmtGo ctx fuel rem with
              | Except.error e => Except.error e
              | Except.ok out => Except.ok ((pyStrOf v).toList ++ out)
    else if c = braceR then
      match rest with
      | [] => Except.error PyErr.typeValueErr
      | c2 :: rest2 =>
        if c2 = braceR then
          match fmtGo ctx fuel rest2 with
          | Except.error e => Except.error e
          | Except.ok out => Except.ok (braceR :: out)
        else Except.error PyErr.typeValueErr
    else
      match fmtGo ctx fuel rest with
      | Except.error e => Except.error e
      | Except.ok out => Except.ok (c :: out)

/-- Python `raw.format_map(context)` on the modelled feature set. -/
def pyFormatMap (raw : String) (ctx : Ctx) : Except PyErr String :=
  match fmtGo ctx (raw.toList.length + 1) raw.toList with
  | Except.error e => Except.error e
  | Except.ok out => Except.ok (String.mk out)

/-- Decoder for the body of a single-quoted Python string literal, modelling
`ast.literal_eval` applied to quote ++ s ++ quote as `Alarm.eval_string`
does.  Recognised escapes: the single-character escapes n, t, r, a, b, f, v,
backslash, single and double quote; octal escapes of up to three digits; and
hex escapes which require exactly two hex digits (a malformed hex escape is
a SyntaxError).  An unrecognised escape is kept literally, as Python does.
A raw single quote terminates the literal early and leaves trailing text,
and a raw newline or carriage return leaves the literal unterminated; both
are modelled as failures.  The rare forms (backslash-newline continuation,
unicode escapes, implicit concatenation when the input ends in a quote) are
outside the modelled subset and also map to failure.  Fuel as in `fmtGo`. -/
def decodeGo : Nat → List Char → Except PyErr (List Char)
  | 0, _ => Except.error PyErr.otherErr
  | _, [] => Except.ok []
  | fuel + 1, c :: rest =>
    if c = quoteCh ∨ c = '\n' ∨ c = '\r' then Except.error PyErr.otherErr
    else if c = '\\' then
      match rest with
      | [] => Except.error PyErr.otherErr
      | e :: rest2 =>
        if e = 'n' ∨ e = 't' ∨ e = 'r' ∨ e = 'a' ∨ e = 'b' ∨ e = 'f' ∨ e = 'v'
            ∨ e = '\\' ∨ e = quoteCh ∨ e = '"' then
          let ch : Char :=
            if e = 'n' then '\n' else if e = 't' then '\t'
            else if e = 'r' then '\r' else if e = 'a' then Char.ofNat 7
            else if e = 'b' then Char.ofNat 8 else if e = 'f' then Char.ofNat 12
            else if e = 'v' then Char.ofNat 11 else e
          match decodeGo fuel rest2 with
          | Except.error er => Except.error er
          | Except.ok out => Except.ok (ch :: out)
        else if isOctal e then
          match rest2 with
          | o2 :: rest3 =>
            if isOctal o2 then
              match rest3 with
              | o3 :: rest4 =>
                if isOctal o3 then
                  match decodeGo fuel rest4 with
                  | Except.error er => Except.error er
                  | Except.ok out =>
                    Except.ok
                      (Char.ofNat (octVal e * 64 + octVal o2 * 8 + octVal o3) :: out)
                else
                  match decodeGo fuel rest3 with
                  | Except.error er => Except.error er
                  | Except.ok out =>
                    Except.ok (Char.ofNat (octVal e * 8 + octVal o2) :: out)
              | [] =>
                match decodeGo fuel rest3 with
                | Except.error er => Except.error er
                | Except.ok out => Except.ok (Char.ofNat (octVal e * 8 + octVal o2) :: out)
            else
              match decodeGo fuel rest2 with
              | Except.error er => Except.error er
              | Except.ok out => Except.ok (Char.ofNat (octVal e) :: out)
          | [] =>
            match decodeGo fuel rest2 with
            | Except.error er => Except.error er
            | Except.ok out => Except.ok (Char.ofNat (octVal e) :: out)
        else if e = 'x' then
          match rest2 with
          | h1 :: h2 :: rest3 =>
            match hexDigit h1, hexDigit h2 with
            | some v1, some v2 =>
              match decodeGo fuel rest3 with
              | Except.error er => Except.error er
              | Except.ok out => Except.ok (Char.ofNat (v1 * 16 + v2) :: out)
            | _, _ => Except.error PyErr.otherErr
          | _ => Except.error PyErr.otherErr
        else if e = 'u' ∨ e = 'U' ∨ e = 'N' ∨ e = '\n' then Except.error PyErr.otherErr
        else
          match decodeGo fuel rest2 with
          | Except.error er => Except.error er
          | Except.ok out => Except.ok ('\\' :: e :: out)
    else
      match decodeGo fuel rest with
      | Except.error er => Except.error er
      | Except.ok out => Except.ok (c :: out)

/-- Python `ast.literal_eval` applied to the input wrapped in single quotes,
the second phase of `Alarm.eval_string`. -/
def pyLiteralEvalStr (s : String) : Except PyErr String :=
  match decodeGo (s.toList.length + 1) s.toList with
  | Except.error e => Except.error e
  | Except.ok out => Except.ok (String.mk out)

/-- Recipients as they come out of configobj: either a list of strings (a
comma-separated configuration value) or a single string. -/
inductive RecipVal where
  | rlist : List String → RecipVal
  | rstr : String → RecipVal
  deriving DecidableEq

/-- A fully resolved transition parameter dict, the result of
`AlarmSvc.parse_on_sect` (alarm-specific overrides merged onto the group
defaults).  Field names follow the Python keys; the two prefix keys are
written in camel case. -/
structure OnParams where
  recipients : RecipVal
  text_set : String
  text_clear : String
  suppress_first : Bool
  subjectPrefix : String
  subject : String
  bodyPrefix : String
  body : String
  deriving DecidableEq

/-- One alarm with its mutable tri-valued state.  `state = pyNone` is the
initial Unknown state; after a boolean rule result is recorded the state is
`pyBool true` (Set) or `pyBool false` (Clear). -/
structure Alarm where
  name : String
  rule : String
  on_true_params : Option OnParams
  on_false_params : Option OnParams
  state : PyVal
  deriving DecidableEq

/-- One notification handed to `Mailer.send`. -/
structure Email where
  recipients : String
  subject : String
  body : String
  deriving DecidableEq

/-- Result handed back by Python `eval` of the rule: either a raised
exception or a value.  `Alarm.eval_rule` maps a raised exception to None
after logging, so a successful evaluation to None and a failure are
indistinguishable in its return value. -/
def eval_rule : Except PyErr PyVal → PyVal
  | Except.error _ => PyVal.pyNone
  | Except.ok v => v

/-- The two-phase renderer `Alarm.eval_string`: substitute variables with
`format_map`, then decode the result as a single-quoted literal.  The Python
local `cooked` is overwritten in two steps inside one try block, so when the
second phase raises, the function returns the substituted-but-undecoded
string from the first phase; only a first-phase failure returns None. -/
def eval_string (raw : String) (context : Ctx) : Option String :=
  match pyFormatMap raw context with
  | Except.error _ => none
  | Except.ok cooked =>
    match pyLiteralEvalStr cooked with
    | Except.error _ => some cooked
    | Except.ok final => some final

/-- The evaluation context built at the top of `Alarm.assess`: every field
of the converted packet plus the reserved keys, merged so that the reserved
keys win.  `timeStr` stands for
`Alarm.epoch_to_string(packet_cvt['dateTime'])`, the host timestamp
formatter applied to the record timestamp. -/
def buildContext (a : Alarm) (packet : Ctx) (timeStr : String) : Ctx :=
  [("_NAME", PyVal.pyStr a.name), ("_RULE", PyVal.pyStr a.rule),
   ("_TIME", PyVal.pyStr timeStr)] ++ packet

/-- The raw recipients value: a configured list is joined with commas, a
single string is passed through. -/
def rawRecipients (ps : OnParams) : String :=
  match ps.recipients with
  | RecipVal.rlist l => String.intercalate "," l
  | RecipVal.rstr s => s

/-- The display text substituted for `_STATE`, chosen by the truthiness of
the new state. -/
def stateTextOf (new_state : PyVal) (ps : OnParams) : String :=
  if pyTruthy new_state then ps.text_set else ps.text_clear

/-- The rendering context after `context['_STATE'] = ...`. -/
def stateCtx (stateText : String) (context : Ctx) : Ctx :=
  ("_STATE", PyVal.pyStr stateText) :: context

/-- Subject line: rendered from subjectPrefix ++ subject, with the garbled
fallback of `Alarm.assess` when the renderer returns None. -/
def subjectOf (name stateText raw : String) (ctx : Ctx) : String :=
  match eval_string raw ctx with
  | some s => s
  | none => name ++ " [" ++ stateText ++ "] *garbled* raw=\x27" ++ raw ++ "\x27"

/-- Body: rendered from bodyPrefix ++ body, with the garbled fallback of
`Alarm.assess` when the renderer returns None. -/
def bodyOf (raw : String) (ctx : Ctx) : String :=
  match eval_string raw ctx with
  | some s => s
  | none => "*garbled* raw=\x27" ++ raw ++ "\x27"

/-- The notification tail of `Alarm.assess` (from the `_STATE` assignment to
`mailer.send`): render recipients against an empty context and abort when
the result is None or empty, otherwise build the email from the rendered or
fallback subject and body.  `a2` is the alarm with its state already
updated. -/
def notify (a2 : Alarm) (context : Ctx) (new_state : PyVal) (ps : OnParams) :
    Alarm × Option Email :=
  match eval_string (rawRecipients ps) [] with
  | none => (a2, none)
  | some recips =>
    if recips = "" then (a2, none)
    else
      (a2, some
        { recipients := recips,
          subject := subjectOf a2.name (stateTextOf new_state ps)
            (ps.subjectPrefix ++ ps.subject)
            (stateCtx (stateTextOf new_state ps) context),
          body := bodyOf (ps.bodyPrefix ++ ps.body)
            (stateCtx (stateTextOf new_state ps) context) })

/-- `Alarm.assess`: evaluate the rule (its outcome is the `ruleRes` input),
bail out on no new state or no state change, record the new state, look up
the transition parameters for the new state, honour `suppress_first` on the
first observation, and otherwise run the notification tail.  The returned
pair is the alarm after the call (its `state` field as mutated by the
source) and the email passed to `Mailer.send`, if any. -/
def assess (a : Alarm) (packet : Ctx) (timeStr : String)
    (ruleRes : Except PyErr PyVal) : Alarm × Option Email :=
  if eval_rule ruleRes = PyVal.pyNone then (a, none)
  else if pyEq (eval_rule ruleRes) a.state then (a, none)
  else
    match (if pyTruthy (eval_rule ruleRes) then a.on_true_params
           else a.on_false_params) with
    | none => ({ a with state := eval_rule ruleRes }, none)
    | some ps =>
      if a.state = PyVal.pyNone ∧ ps.suppress_first = true then
        ({ a with state := eval_rule ruleRes }, none)
      else
        notify { a with state := eval_rule ruleRes }
          (buildContext a packet timeStr) (eval_rule ruleRes) ps

/-- Assess one alarm against a sequence of rule outcomes (one archive record
per outcome), collecting the emails sent along the way. -/
def assessRun (a : Alarm) (packet : Ctx) (timeStr : String) :
    List (Except PyErr PyVal) → Alarm × List Email
  | [] => (a, [])
  | r :: rs =>
    ((assessRun (assess a packet timeStr r).1 packet timeStr rs).1,
     match (assess a packet timeStr r).2 with
     | some em => em :: (assessRun (assess a packet timeStr r).1 packet timeStr rs).2
     | none => (assessRun (assess a packet timeStr r).1 packet timeStr rs).2)

/-- Whether the recipients of a transition config survive the rendering
step of `Alarm.assess`: rendered against an empty context and non-empty. -/
def recipientsOk (ps : OnParams) : Bool :=
  match eval_string (rawRecipients ps) [] with
  | none => false
  | some r => if r = "" then false else true

/-- Raw `[[[on_set]]]` or `[[[on_clear]]]` configuration sub-section: every
key optional, `suppress_first` still the raw configuration string. -/
structure OnSect where
  recipients : Option RecipVal
  text_set : Option String
  text_clear : Option String
  suppress_first : Option String
  subjectPrefix : Option String
  subject : Option String
  bodyPrefix : Option String
  body : Option String
  deriving DecidableEq

/-- Group-level defaults collected by `AlarmSvc.__init__` before the alarm
definitions are parsed. -/
structure OnDefaults where
  recipients : RecipVal
  text_set : String
  text_clear : String
  notify_first : String
  subjectPrefix : String
  subject : String
  bodyPrefix : String
  body : String
  deriving DecidableEq

/-- Modelled from weewx's `weeutil.weeutil.to_bool`: recognises the usual
true and false words, otherwise falls back to integer parsing, and raises
ValueError for anything else. -/
def to_bool (s : String) : Except PyErr Bool :=
  let l := s.toLower
  if l = "true" ∨ l = "yes" ∨ l = "y" then Except.ok true
  else if l = "false" ∨ l = "no" ∨ l = "n" then Except.ok false
  else
    match s.toInt? with
    | some n => Except.ok (n != 0)
    | none => Except.error PyErr.typeValueErr

/-- Python `needle in hay` on strings: substring containment. -/
def strContains (hay needle : String) : Bool :=
  hay.toList.tails.any (fun t => needle.toList.isPrefixOf t)

/-- `AlarmSvc.parse_on_sect`: each key taken from the sub-section when
present, else from the group defaults.  `suppress_first` comes from the
local declaration parsed with `to_bool` (an invalid boolean is assumed
False after a warning); without a local declaration it is the negation of
the membership of the transition word in the group `notify_first` string
(Python `not in` on strings is substring non-containment). -/
def parse_on_sect (sect : OnSect) (d : OnDefaults) (on_state : String) : OnParams :=
  { recipients := sect.recipients.getD d.recipients,
    text_set := sect.text_set.getD d.text_set,
    text_clear := sect.text_clear.getD d.text_clear,
    suppress_first :=
      match sect.suppress_first with
      | some raw =>
        match to_bool raw with
        | Except.ok b => b
        | Except.error _ => false
      | none => !(strContains d.notify_first on_state),
    subjectPrefix := sect.subjectPrefix.getD d.subjectPrefix,
    subject := sect.subject.getD d.subject,
    bodyPrefix := sect.bodyPrefix.getD d.bodyPrefix,
    body := sect.body.getD d.body }

/-- One `[[name]]` alarm definition sub-section as parsed by configobj. -/
structure AlarmSect where
  rule : Option String
  on_set : Option OnSect
  on_clear : Option OnSect
  deriving DecidableEq

/-- `AlarmSvc.parse_alarm`.  When the section has no usable rule the source
executes `log.warning(f"... [\x7balarm_name\x7d] no rule")`, but no variable
named `alarm_name` is in scope there (the parameter is `name`), so the
f-string raises NameError instead of logging and returning None; the
exception is modelled as the error branch.  Otherwise the on_set and
on_clear sub-sections, when present, are resolved against the defaults. -/
def parse_alarm (name : String) (sect : AlarmSect) (d : OnDefaults) :
    Except PyErr (Option Alarm) :=
  match sect.rule with
  | none => Except.error PyErr.nameErr
  | some r =>
    if r = "" then Except.error PyErr.nameErr
    else
      Except.ok (some
        { name := name,
          rule := r,
          on_true_params := sect.on_set.map (fun s => parse_on_sect s d "set"),
          on_false_params := sect.on_clear.map (fun s => parse_on_sect s d "clear"),
          state := PyVal.pyNone })

/-- The `[Alarms]` group: the optional scalar defaults and the list of alarm
definition sub-sections in configuration order.  Scalar keys that are not
sub-sections are skipped by the `isinstance(alarm_sect, configobj.Section)`
test of the source, so only the sub-sections are listed here. -/
structure AlarmsSect where
  unit_system : Option String
  recipients : Option RecipVal
  text_set : Option String
  text_clear : Option String
  notify_first : Option String
  subjectPrefix : Option String
  subject : Option String
  bodyPrefix : Option String
  body : Option String
  sections : List (String × AlarmSect)

/-- The group defaults exactly as `AlarmSvc.__init__` fills them in,
including the source's default template strings (braces written by code
point). -/
def mkOnDefaults (s : AlarmsSect) : OnDefaults :=
  { recipients := s.recipients.getD (RecipVal.rlist []),
    text_set := s.text_set.getD "SET",
    text_clear := s.text_clear.getD "CLR",
    notify_first := (s.notify_first.getD "").toLower,
    subjectPrefix := s.subjectPrefix.getD "Alarm [\x7b_STATE\x7d] ",
    subject := s.subject.getD "\x7b_NAME\x7d",
    bodyPrefix := s.bodyPrefix.getD
      "Alarm:\\t\x7b_NAME\x7d\\nState:\\t\x7b_STATE\x7d\\nTest:\\t\x7b_RULE\x7d\\nTime:\\t\x7b_TIME\x7d\\n",
    body := s.body.getD "" }

/-- The supported unit systems, the keys of `weewx.units.unit_constants`. -/
def unit_constants : List String := ["US", "METRIC", "METRICWX"]

/-- How far `AlarmSvc.__init__` gets: it slips away without binding to the
archive event in the first three cases and only in the `started` case
registers `new_archive_record` as a listener. -/
inductive InitOutcome where
  | noSection : InitOutcome
  | badUnits : String → InitOutcome
  | noAlarms : InitOutcome
  | started : List Alarm → InitOutcome
  deriving DecidableEq

/-- The alarm-definition loop of `AlarmSvc.__init__`: parse each
sub-section, keep the alarms, drop the None results.  An exception raised
by `parse_alarm` is not caught anywhere in `__init__`, so it aborts the
whole loop and propagates. -/
def parseAlarms (d : OnDefaults) : List (String × AlarmSect) →
    Except PyErr (List Alarm)
  | [] => Except.ok []
  | (nm, sect) :: rest =>
    match parse_alarm nm sect d with
    | Except.error e => Except.error e
    | Except.ok a? =>
      match parseAlarms d rest with
      | Except.error e => Except.error e
      | Except.ok l =>
        Except.ok (match a? with
                   | some a => a :: l
                   | none => l)

/-- `AlarmSvc.__init__` from the `Alarms` lookup onwards: absent group,
invalid unit system and an empty alarm list each leave the service inert;
otherwise it starts with the parsed alarms.  An exception from the parsing
loop propagates to the caller of the constructor. -/
def svc_init (cfg : Option AlarmsSect) : Except PyErr InitOutcome :=
  match cfg with
  | none => Except.ok InitOutcome.noSection
  | some s =>
    let key := s.unit_system.getD "METRIC"
    if unit_constants.contains key = false then Except.ok (InitOutcome.badUnits key)
    else
      match parseAlarms (mkOnDefaults s) s.sections with
      | Except.error e => Except.error e
      | Except.ok alarms =>
        Except.ok (if alarms.isEmpty then InitOutcome.noAlarms
                   else InitOutcome.started alarms)

/-- Whether a constructor outcome ends with the service registered on the
archive event stream. -/
def registers : Except PyErr InitOutcome → Bool
  | Except.ok (InitOutcome.started _) => true
  | _ => false

/-- The mail relay client configuration. -/
structure Mailer where
  server : String
  sender : String
  deriving DecidableEq

/-- The two exception classes relevant to `Mailer.send`: the
`smtplib.SMTPException` family, which is the only class the except clause
catches, and the OSError family (connection refused, DNS failure, socket
timeout) that the same transport calls equally raise and that no clause in
`send` catches. -/
inductive MailErr where
  | smtpExc : MailErr
  | osErr : MailErr
  deriving DecidableEq

/-- What each transport interaction of one `Mailer.send` call would raise:
`connectRes` for `smtplib.SMTP(server)`, `sendmailRes` for `sendmail`, and
`quitRes` for the `quit()` issued by the finally clause.  `none` means the
step succeeds; a later field is consulted only on the paths where its step
actually runs. -/
structure SmtpOutcome where
  connectRes : Option MailErr
  sendmailRes : Option MailErr
  quitRes : Option MailErr
  deriving DecidableEq

/-- Observable result of one `Mailer.send` call: whether the message was
delivered, the info and error log lines, whether the finally clause released
the relay connection, and the exception leaving the call, if any. -/
structure SendResult where
  delivered : Bool
  infoLog : Option String
  errorLog : Option String
  quitCalled : Bool
  raised : Option MailErr
  deriving DecidableEq

/-- `Mailer.send` with Python try/except/finally semantics.  The try block
connects, sends and logs the info line; the except clause catches only
`smtplib.SMTPException`, logging it together with the subject, while any
other exception stays pending; the finally clause calls `quit()` whenever
the local `smtp` was assigned (it is still None when the connect call
itself raised), and an exception raised by `quit()` inside the finally
clause replaces whatever the try/except part produced and propagates.  The
`raised` field is the exception leaving the call, if any. -/
def Mailer.send (_m : Mailer) (_recipients subject _body : String)
    (o : SmtpOutcome) : SendResult :=
  match o.connectRes with
  | some e =>
    { delivered := false,
      infoLog := none,
      errorLog := if e = MailErr.smtpExc then some ("SMTP send failed: " ++ subject)
                  else none,
      quitCalled := false,
      raised := if e = MailErr.smtpExc then none else some e }
  | none =>
    match o.sendmailRes with
    | some e =>
      { delivered := false,
        infoLog := none,
        errorLog := if e = MailErr.smtpExc then some ("SMTP send failed: " ++ subject)
                    else none,
        quitCalled := true,
        raised := match o.quitRes with
                  | some eq => some eq
                  | none => if e = MailErr.smtpExc then none else some e }
    | none =>
      { delivered := true,
        infoLog := some ("sent: " ++ subject),
        errorLog := none,
        quitCalled := true,
        raised := o.quitRes }

/-- Transition parameters with deliverable recipients, used by concrete
instances below. -/
def psHot : OnParams :=
  { recipients := RecipVal.rstr "ops@example.com",
    text_set := "SET", text_clear := "CLR", suppress_first := false,
    subjectPrefix := "", subject := "s", bodyPrefix := "", body := "b" }

/-- Alarm previously observed Clear, with an on_set action configured. -/
def alarmHot : Alarm :=
  { name := "Hot", rule := "outTemp >= 30.0",
    on_true_params := some psHot, on_false_params := none,
    state := PyVal.pyBool false }

/-- Alarm previously observed Clear with no action configured on either
transition. -/
def alarmNoAction : Alarm :=
  { name := "Quiet", rule := "outTemp >= 30.0",
    on_true_params := none, on_false_params := none,
    state := PyVal.pyBool false }

/-- Transition parameters with `suppress_first` set. -/
def psFirst : OnParams :=
  { recipients := RecipVal.rstr "ops@example.com",
    text_set := "SET", text_clear := "CLR", suppress_first := true,
    subjectPrefix := "", subject := "s", bodyPrefix := "", body := "b" }

/-- Alarm still in the Unknown state, with a suppressing on_set config. -/
def alarmFirst : Alarm :=
  { name := "Freezing", rule := "outTemp <= 0.0",
    on_true_params := some psFirst, on_false_params := none,
    state := PyVal.pyNone }

/-- Alarm already Set, used for the idempotence instance. -/
def alarmIdem : Alarm :=
  { name := "Hot", rule := "outTemp >= 30.0",
    on_true_params := some psHot, on_false_params := some psHot,
    state := PyVal.pyBool true }

/-- Transition parameters whose subject template references a variable that
is absent from every rendering context and whose body template carries a
malformed hex escape: the subject fails in the substitution phase, the body
fails in the literal-decoding phase. -/
def psGarbled : OnParams :=
  { recipients := RecipVal.rstr "ops@example.com",
    text_set := "SET", text_clear := "CLR", suppress_first := false,
    subjectPrefix := "", subject := "\x7bmissing\x7d",
    bodyPrefix := "", body := "\\xZZ" }

/-- Alarm previously Clear whose on_set templates are the garbled ones. -/
def alarmGarbled : Alarm :=
  { name := "Frost", rule := "outTemp <= 0.0",
    on_true_params := some psGarbled, on_false_params := none,
    state := PyVal.pyBool false }

/-- Transition parameters whose body fails only in the literal-decoding
phase while the subject renders fine. -/
def psMisrender : OnParams :=
  { recipients := RecipVal.rstr "ops@example.com",
    text_set := "SET", text_clear := "CLR", suppress_first := false,
    subjectPrefix := "", subject := "S", bodyPrefix := "", body := "\\xZZ" }

/-- Alarm previously Clear whose on_set body template dies in phase two. -/
def alarmMisrender : Alarm :=
  { name := "Damp", rule := "outHumidity >= 90",
    on_true_params := some psMisrender, on_false_params := none,
    state := PyVal.pyBool false }

/-- Transition parameters with a recipients list of two addresses. -/
def psRecip : OnParams :=
  { recipients := RecipVal.rlist ["a@x.com", "b@y.com"],
    text_set := "SET", text_clear := "CLR", suppress_first := false,
    subjectPrefix := "", subject := "s", bodyPrefix := "", body := "b" }

/-- Alarm previously Clear with the two-address on_set config. -/
def alarmRecip : Alarm :=
  { name := "Windy", rule := "windSpeed >= 50",
    on_true_params := some psRecip, on_false_params := none,
    state := PyVal.pyBool false }

/-- An `[Alarms]` group with a single alarm definition that has no rule. -/
def cfgNoRule : AlarmsSect :=
  { unit_system := none, recipients := none, text_set := none,
    text_clear := none, notify_first := none, subjectPrefix := none,
    subject := none, bodyPrefix := none, body := none,
    sections := [("NoRule", { rule := none, on_set := none, on_clear := none })] }

/-- An `[Alarms]` group requesting an unsupported unit system. -/
def cfgBadUnits : AlarmsSect :=
  { unit_system := some "MARTIAN", recipients := none, text_set := none,
    text_clear := none, notify_first := none, subjectPrefix := none,
    subject := none, bodyPrefix := none, body := none, sections := [] }

/-- A mail relay configuration for the concrete send instances. -/
def mailerLocal : Mailer := { server := "localhost", sender := "weewx" }

theorem eval_rule_ok (v : PyVal) : eval_rule (Except.ok v) = v := rfl

theorem eval_rule_error (e : PyErr) : eval_rule (Except.error e) = PyVal.pyNone := rfl

theorem notify_fst (a2 : Alarm) (ctx : Ctx) (ns : PyVal) (ps : OnParams) :
    (notify a2 ctx ns ps).1 = a2 := by
  unfold notify
  cases eval_string (rawRecipients ps) [] with
  | none => rfl
  | some r => by_cases hre : r = "" <;> simp [hre]

theorem notify_abort (a2 : Alarm) (ctx : Ctx) (ns : PyVal) (ps : OnParams)
    (h : eval_string (rawRecipients ps) [] = none ∨
         eval_string (rawRecipients ps) [] = some "") :
    notify a2 ctx ns ps = (a2, none) := by
  unfold notify
  rcases h with h | h <;> simp [h]

theorem notify_email (a2 : Alarm) (ctx : Ctx) (ns : PyVal) (ps : OnParams)
    (r : String) (hr : eval_string (rawRecipients ps) [] = some r) (hne : r ≠ "") :
    notify a2 ctx ns ps =
      (a2, some
        { recipients := r,
          subject := subjectOf a2.name (stateTextOf ns ps)
            (ps.subjectPrefix ++ ps.subject) (stateCtx (stateTextOf ns ps) ctx),
          body := bodyOf (ps.bodyPrefix ++ ps.body)
            (stateCtx (stateTextOf ns ps) ctx) }) := by
  unfold notify
  simp [hr, hne]

theorem assess_none_result (a : Alarm) (packet : Ctx) (t : String) :
    assess a packet t (Except.ok PyVal.pyNone) = (a, none) := by
  unfold assess
  simp [eval_rule]

theorem assess_error_result (a : Alarm) (packet : Ctx) (t : String) (e : PyErr) :
    assess a packet t (Except.error e) = (a, none) := by
  unfold assess
  simp [eval_rule]

theorem assess_noop (a : Alarm) (packet : Ctx) (t : String) (b : Bool)
    (h : pyEq (PyVal.pyBool b) a.state = true) :
    assess a packet t (Except.ok (PyVal.pyBool b)) = (a, none) := by
  unfold assess
  simp only [eval_rule]
  rw [if_neg (by simp), if_pos h]

theorem assess_change_noparams (a : Alarm) (packet : Ctx) (t : String) (b : Bool)
    (h : pyEq (PyVal.pyBool b) a.state = false)
    (hsel : (if b then a.on_true_params else a.on_false_params) = none) :
    assess a packet t (Except.ok (PyVal.pyBool b)) =
      ({ a with state := PyVal.pyBool b }, none) := by
  unfold assess
  simp only [eval_rule, pyTruthy]
  rw [if_neg (by simp), if_neg (by simp [h]), hsel]

theorem assess_change_suppress (a : Alarm) (packet : Ctx) (t : String) (b : Bool)
    (ps : OnParams)
    (h : pyEq (PyVal.pyBool b) a.state = false)
    (hsel : (if b then a.on_true_params else a.on_false_params) = some ps)
    (hstate : a.state = PyVal.pyNone) (hsup : ps.suppress_first = true) :
    assess a packet t (Except.ok (PyVal.pyBool b)) =
      ({ a with state := PyVal.pyBool b }, none) := by
  unfold assess
  simp only [eval_rule, pyTruthy]
  rw [if_neg (by simp), if_neg (by simp [h]), hsel]
  simp [hstate, hsup]

theorem assess_change_notify (a : Alarm) (packet : Ctx) (t : String) (b : Bool)
    (ps : OnParams)
    (h : pyEq (PyVal.pyBool b) a.state = false)
    (hsel : (if b then a.on_true_params else a.on_false_params) = some ps)
    (hns : ¬(a.state = PyVal.pyNone ∧ ps.suppress_first = true)) :
    assess a packet t (Except.ok (PyVal.pyBool b)) =
      notify { a with state := PyVal.pyBool b } (buildContext a packet t)
        (PyVal.pyBool b) ps := by
  unfold assess
  simp only [eval_rule, pyTruthy]
  rw [if_neg (by simp), if_neg (by simp [h]), hsel]
  simp [hns]

theorem assess_change_fst (a : Alarm) (packet : Ctx) (t : String) (b : Bool)
    (h : pyEq (PyVal.pyBool b) a.state = false) :
    (assess a packet t (Except.ok (PyVal.pyBool b))).1 =
      { a with state := PyVal.pyBool b } := by
  cases hsel : (if b then a.on_true_params else a.on_false_params) with
  | none => rw [assess_change_noparams a packet t b h hsel]
  | some ps =>
    by_cases hns : a.state = PyVal.pyNone ∧ ps.suppress_first = true
    · rw [assess_change_suppress a packet t b ps h hsel hns.1 hns.2]
    · rw [assess_change_notify a packet t b ps h hsel hns]
      exact notify_fst _ _ _ _

theorem assessRun_noop (packet : Ctx) (t : String) (b : Bool) :
    ∀ (n : Nat) (a : Alarm), a.state = PyVal.pyBool b →
      assessRun a packet t (List.replicate n (Except.ok (PyVal.pyBool b))) = (a, []) := by
  intro n
  induction n with
  | zero => intro a _; rfl
  | succ k ih =>
    intro a h
    have hno : pyEq (PyVal.pyBool b) a.state = true := by
      rw [h]; simp [pyEq]
    rw [List.replicate_succ]
    simp only [assessRun, assess_noop a packet t b hno, ih a h]

theorem recipientsOk_iff (ps : OnParams) :
    recipientsOk ps = true ↔
      ∃ r, eval_string (rawRecipients ps) [] = some r ∧ r ≠ "" := by
  unfold recipientsOk
  cases h : eval_string (rawRecipients ps) [] with
  | none => simp
  | some r =>
    by_cases hre : r = ""
    · subst hre; simp
    · simp [hre]

theorem assess_state_preserved (a : Alarm) (packet : Ctx) (t : String)
    (res : Except PyErr PyVal)
    (h : (assess a packet t res).1.state = PyVal.pyNone) :
    a.state = PyVal.pyNone := by
  by_cases h0 : eval_rule res = PyVal.pyNone
  · have he : assess a packet t res = (a, none) := by
      unfold assess; rw [if_pos h0]
    rw [he] at h; exact h
  · by_cases h1 : pyEq (eval_rule res) a.state = true
    · have he : assess a packet t res = (a, none) := by
        unfold assess; rw [if_neg h0, if_pos h1]
      rw [he] at h; exact h
    · have hfst : (assess a packet t res).1 = { a with state := eval_rule res } := by
        unfold assess
        rw [if_neg h0, if_neg h1]
        cases hsel : (if pyTruthy (eval_rule res) then a.on_true_params
                      else a.on_false_params) with
        | none => rfl
        | some ps =>
          by_cases hns : a.state = PyVal.pyNone ∧ ps.suppress_first = true
          · simp [hns]
          · simp [hns, notify_fst]
      rw [hfst] at h
      simp at h
      exact absurd h h0

theorem subjectOf_subst_fail (name st raw : String) (ctx : Ctx) (e : PyErr)
    (h : pyFormatMap raw ctx = Except.error e) :
    subjectOf name st raw ctx =
      name ++ " [" ++ st ++ "] *garbled* raw=\x27" ++ raw ++ "\x27" := by
  unfold subjectOf eval_string
  simp [h]

theorem subjectOf_decode_fail (name st raw : String) (ctx : Ctx) (c : String)
    (e : PyErr) (h1 : pyFormatMap raw ctx = Except.ok c)
    (h2 : pyLiteralEvalStr c = Except.error e) :
    subjectOf name st raw ctx = c := by
  unfold subjectOf eval_string
  simp [h1, h2]

theorem bodyOf_subst_fail (raw : String) (ctx : Ctx) (e : PyErr)
    (h : pyFormatMap raw ctx = Except.error e) :
    bodyOf raw ctx = "*garbled* raw=\x27" ++ raw ++ "\x27" := by
  unfold bodyOf eval_string
  simp [h]

theorem bodyOf_decode_fail (raw : String) (ctx : Ctx) (c : String) (e : PyErr)
    (h1 : pyFormatMap raw ctx = Except.ok c)
    (h2 : pyLiteralEvalStr c = Except.error e) :
    bodyOf raw ctx = c := by
  unfold bodyOf eval_string
  simp [h1, h2]

/-- C3: the state field only transitions Unknown to Clear or Set, or between
Clear and Set: no assessment ever returns it to Unknown, a boolean rule
result moves it at most to the corresponding boolean state, and an
assessment whose rule evaluates to the same state as the previously recorded
one mutates nothing and triggers no notification.  Clear and Set are
`pyBool false` and `pyBool true`; rule results are boolean as in the state
machine of the specification. -/
theorem alarm_state_transition_invariant (a : Alarm) (packet : Ctx) (t : String)
    (res : Except PyErr PyVal) (b : Bool) :
    ((assess a packet t res).1.state = PyVal.pyNone → a.state = PyVal.pyNone) ∧
    ((assess a packet t (Except.ok (PyVal.pyBool b))).1.state = a.state ∨
      (assess a packet t (Except.ok (PyVal.pyBool b))).1.state = PyVal.pyBool b) ∧
    (pyEq (PyVal.pyBool b) a.state = true →
      assess a packet t (Except.ok (PyVal.pyBool b)) = (a, none)) := by
  refine ⟨assess_state_preserved a packet t res, ?_, assess_noop a packet t b⟩
  by_cases hc : pyEq (PyVal.pyBool b) a.state = true
  · left; rw [assess_noop a packet t b hc]
  · right
    rw [Bool.not_eq_true] at hc
    rw [assess_change_fst a packet t b hc]

theorem alarm_state_transition_invariant_witness :
    assess alarmIdem [] "" (Except.ok (PyVal.pyBool true)) = (alarmIdem, none) :=
  (alarm_state_transition_invariant alarmIdem [] ""
    (Except.ok (PyVal.pyBool true)) true).2.2 (by decide)

/-- C4: a failed rule evaluation yields no new state and the assessment for
that record is abandoned: `eval_rule` maps every raised exception class to
None and `assess` then leaves the alarm unchanged and sends nothing.  The
except-everything ladder of `eval_rule` covers all modelled exception
classes, so in the model `assess` is a total function and nothing reaches
its caller. -/
theorem rule_failure_abandons_assessment (a : Alarm) (packet : Ctx) (t : String)
    (e : PyErr) :
    eval_rule (Except.error e) = PyVal.pyNone ∧
    assess a packet t (Except.error e) = (a, none) :=
  ⟨rfl, assess_error_result a packet t e⟩

/-- C8: in the notification context built per assessment the reserved keys
are merged after the converted record fields, so their values (alarm name,
rule string, formatted timestamp) win in the evaluation and rendering
context for every record, in particular for records that themselves carry a
_NAME, _RULE or _TIME field. -/
theorem reserved_keys_override_record (a : Alarm) (packet : Ctx) (t : String) :
    ctxGet (buildContext a packet t) "_NAME" = some (PyVal.pyStr a.name) ∧
    ctxGet (buildContext a packet t) "_RULE" = some (PyVal.pyStr a.rule) ∧
    ctxGet (buildContext a packet t) "_TIME" = some (PyVal.pyStr t) :=
  ⟨rfl, rfl, rfl⟩

/-- C10: a rule that successfully evaluates to None is handled exactly like
a failed evaluation at the assess interface: the state is unchanged, no
notification is sent, and the outcome coincides with that of any raised
exception, so the two cases are indistinguishable to the caller. -/
theorem none_result_indistinguishable_from_failure (a : Alarm) (packet : Ctx)
    (t : String) (e : PyErr) :
    assess a packet t (Except.ok PyVal.pyNone) = (a, none) ∧
    assess a packet t (Except.ok PyVal.pyNone) = assess a packet t (Except.error e) := by
  refine ⟨assess_none_result a packet t, ?_⟩
  rw [assess_none_result a packet t, assess_error_result a packet t e]

/-- C1 counterexample: an alarm whose previously recorded state is Clear
(not Unknown) and whose rule now evaluates to true undergoes a real
transition, yet `assess` sends no notification because no on_set transition
config exists — refuting the claimed equivalence between notification and a
changed boolean. -/
theorem assess_transition_without_config_counterexample :
    pyEq (PyVal.pyBool true) alarmNoAction.state = false ∧
    alarmNoAction.state ≠ PyVal.pyNone ∧
    (assess alarmNoAction [] "" (Except.ok (PyVal.pyBool true))).2 = none := by
  refine ⟨rfl, by decide, ?_⟩
  rw [assess_change_noparams alarmNoAction [] "" true rfl rfl]

/-- C1 (amended): past the first observation, `assess` sends a notification
exactly when the newly computed boolean differs from the previously recorded
state AND the transition config for the new state exists AND its recipients
render to a non-empty string; without a config for that transition, or with
recipients that render empty or fail, the state still updates but nothing is
sent. -/
theorem assess_notifies_iff_transition (a : Alarm) (packet : Ctx) (t : String)
    (b p : Bool) (h : a.state = PyVal.pyBool p) :
    (assess a packet t (Except.ok (PyVal.pyBool b))).2.isSome = true ↔
      (b ≠ p ∧ ∃ ps, (if b then a.on_true_params else a.on_false_params) = some ps ∧
        recipientsOk ps = true) := by
  by_cases hbp : b = p
  · subst hbp
    have hno : pyEq (PyVal.pyBool b) a.state = true := by rw [h]; simp [pyEq]
    rw [assess_noop a packet t b hno]
    simp
  · have hne : pyEq (PyVal.pyBool b) a.state = false := by
      rw [h]; simp [pyEq, hbp]
    have hns : ∀ ps : OnParams, ¬(a.state = PyVal.pyNone ∧ ps.suppress_first = true) := by
      intro ps hand
      rw [h] at hand
      exact PyVal.noConfusion hand.1
    cases hsel : (if b then a.on_true_params else a.on_false_params) with
    | none =>
      rw [assess_change_noparams a packet t b hne hsel]
      simp [hsel]
    | some ps =>
      rw [assess_change_notify a packet t b ps hne hsel (hns ps)]
      cases hr : eval_string (rawRecipients ps) [] with
      | none =>
        rw [notify_abort _ _ _ _ (Or.inl hr)]
        simp [hsel, recipientsOk, hr, hbp]
      | some r =>
        by_cases hre : r = ""
        · subst hre
          rw [notify_abort _ _ _ _ (Or.inr hr)]
          simp [hsel, recipientsOk, hr, hbp]
        · rw [notify_email _ _ _ _ r hr hre]
          simp [hsel, recipientsOk, hr, hre, hbp]

theorem assess_notifies_iff_transition_witness :
    (assess alarmHot [] "" (Except.ok (PyVal.pyBool true))).2.isSome = true :=
  (assess_notifies_iff_transition alarmHot [] "" true false rfl).mpr
    ⟨by decide, psHot, rfl, by decide⟩

/-- C2: on the first successfully evaluated record the alarm leaves Unknown
and records the boolean state; with the selected transition config present
and `suppress_first` set, no notification is sent over any number of
subsequent records repeating the same boolean result; with `suppress_first`
unset and recipients that render non-empty the notification goes out while
the state is still recorded, and the repeats stay silent. -/
theorem first_observation_handling (a : Alarm) (packet : Ctx) (t : String)
    (b : Bool) (n : Nat) (h : a.state = PyVal.pyNone) :
    (assess a packet t (Except.ok (PyVal.pyBool b))).1.state = PyVal.pyBool b ∧
    (∀ ps, (if b then a.on_true_params else a.on_false_params) = some ps →
      (ps.suppress_first = true →
        assessRun a packet t (List.replicate (n + 1) (Except.ok (PyVal.pyBool b))) =
          ({ a with state := PyVal.pyBool b }, [])) ∧
      (ps.suppress_first = false → recipientsOk ps = true →
        ∃ em, assessRun a packet t (List.replicate (n + 1) (Except.ok (PyVal.pyBool b))) =
          ({ a with state := PyVal.pyBool b }, [em]))) := by
  have hne : pyEq (PyVal.pyBool b) a.state = false := by rw [h]; cases b <;> rfl
  constructor
  · rw [assess_change_fst a packet t b hne]
  · intro ps hsel
    constructor
    · intro hsup
      have h1 : assess a packet t (Except.ok (PyVal.pyBool b)) =
          ({ a with state := PyVal.pyBool b }, none) :=
        assess_change_suppress a packet t b ps hne hsel h hsup
      rw [List.replicate_succ]
      simp only [assessRun, h1,
        assessRun_noop packet t b n { a with state := PyVal.pyBool b } rfl]
    · intro hsup hrec
      obtain ⟨r, hr, hrne⟩ := (recipientsOk_iff ps).mp hrec
      obtain ⟨em, h1⟩ : ∃ em, assess a packet t (Except.ok (PyVal.pyBool b)) =
          ({ a with state := PyVal.pyBool b }, some em) :=
        ⟨_, by
          rw [assess_change_notify a packet t b ps hne hsel
            (by rintro ⟨_, hx⟩; rw [hsup] at hx; exact Bool.false_ne_true hx)]
          exact notify_email _ _ _ _ r hr hrne⟩
      refine ⟨em, ?_⟩
      rw [List.replicate_succ]
      simp only [assessRun, h1,
        assessRun_noop packet t b n { a with state := PyVal.pyBool b } rfl]

theorem first_observation_handling_witness :
    assessRun alarmFirst [] "" (List.replicate 3 (Except.ok (PyVal.pyBool true))) =
      ({ alarmFirst with state := PyVal.pyBool true }, []) :=
  ((first_observation_handling alarmFirst [] "" true 2 rfl).2 psFirst rfl).1 rfl

/-- C5 counterexample: on a real transition of `alarmMisrender` the body
template passes substitution unchanged but fails in the literal-decoding
phase (malformed hex escape), yet the email goes out with the undecoded
phase-one text as its body and without the garbled marker or the raw
template fallback — refuting the claim that a failure at any stage of the
two-phase pipeline substitutes the fallback string. -/
theorem render_phase_two_no_fallback_counterexample :
    pyFormatMap "\\xZZ"
      (stateCtx "SET" (buildContext alarmMisrender [] "")) = Except.ok "\\xZZ" ∧
    pyLiteralEvalStr "\\xZZ" = Except.error PyErr.otherErr ∧
    (assess alarmMisrender [] "" (Except.ok (PyVal.pyBool true))).2 =
      some { recipients := "ops@example.com", subject := "S", body := "\\xZZ" } ∧
    strContains "\\xZZ" "*garbled*" = false := by
  refine ⟨rfl, rfl, rfl, rfl⟩

/-- C5 (amended): when placeholder substitution of the subject or body
template fails, `assess` substitutes the deterministic fallback carrying the
raw template and the garbled marker; when substitution succeeds but the
escape-decoding phase fails, the substituted-but-undecoded string is used
as-is with no fallback; in both cases the notification email is still
sent. -/
theorem render_failure_fallbacks (a : Alarm) (packet : Ctx) (t : String)
    (b p : Bool) (ps : OnParams)
    (h : a.state = PyVal.pyBool p) (hbp : b ≠ p)
    (hsel : (if b then a.on_true_params else a.on_false_params) = some ps)
    (r : String) (hr : eval_string (rawRecipients ps) [] = some r) (hrne : r ≠ "") :
    ∃ em, (assess a packet t (Except.ok (PyVal.pyBool b))).2 = some em ∧
      (∀ e1, pyFormatMap (ps.subjectPrefix ++ ps.subject)
          (stateCtx (stateTextOf (PyVal.pyBool b) ps) (buildContext a packet t)) =
            Except.error e1 →
        em.subject = a.name ++ " [" ++ stateTextOf (PyVal.pyBool b) ps ++
          "] *garbled* raw=\x27" ++ (ps.subjectPrefix ++ ps.subject) ++ "\x27") ∧
      (∀ c e1, pyFormatMap (ps.subjectPrefix ++ ps.subject)
          (stateCtx (stateTextOf (PyVal.pyBool b) ps) (buildContext a packet t)) =
            Except.ok c →
        pyLiteralEvalStr c = Except.error e1 → em.subject = c) ∧
      (∀ e1, pyFormatMap (ps.bodyPrefix ++ ps.body)
          (stateCtx (stateTextOf (PyVal.pyBool b) ps) (buildContext a packet t)) =
            Except.error e1 →
        em.body = "*garbled* raw=\x27" ++ (ps.bodyPrefix ++ ps.body) ++ "\x27") ∧
      (∀ c e1, pyFormatMap (ps.bodyPrefix ++ ps.body)
          (stateCtx (stateTextOf (PyVal.pyBool b) ps) (buildContext a packet t)) =
            Except.ok c →
        pyLiteralEvalStr c = Except.error e1 → em.body = c) := by
  have hne : pyEq (PyVal.pyBool b) a.state = false := by
    rw [h]; simp [pyEq, hbp]
  have hns : ¬(a.state = PyVal.pyNone ∧ ps.suppress_first = true) := by
    rintro ⟨hx, _⟩; rw [h] at hx; exact PyVal.noConfusion hx
  have hass : (assess a packet t (Except.ok (PyVal.pyBool b))).2 =
      some { recipients := r,
             subject := subjectOf a.name (stateTextOf (PyVal.pyBool b) ps)
               (ps.subjectPrefix ++ ps.subject)
               (stateCtx (stateTextOf (PyVal.pyBool b) ps) (buildContext a packet t)),
             body := bodyOf (ps.bodyPrefix ++ ps.body)
               (stateCtx (stateTextOf (PyVal.pyBool b) ps) (buildContext a packet t)) } := by
    rw [assess_change_notify a packet t b ps hne hsel hns,
        notify_email _ _ _ _ r hr hrne]
  refine ⟨_, hass, ?_, ?_, ?_, ?_⟩
  · intro e1 hf
    exact subjectOf_subst_fail a.name _ _ _ e1 hf
  · intro c e1 h1 h2
    exact subjectOf_decode_fail a.name _ _ _ c e1 h1 h2
  · intro e1 hf
    exact bodyOf_subst_fail _ _ e1 hf
  · intro c e1 h1 h2
    exact bodyOf_decode_fail _ _ c e1 h1 h2

theorem render_failure_fallbacks_witness :
    ∃ em, (assess alarmGarbled [] "" (Except.ok (PyVal.pyBool true))).2 = some em ∧
      em.subject = "Frost [SET] *garbled* raw=\x27\x7bmissing\x7d\x27" ∧
      em.body = "\\xZZ" := by
  obtain ⟨em, he, hs1, _hs2, _hb1, hb2⟩ :=
    render_failure_fallbacks alarmGarbled [] "" true false psGarbled rfl
      (by decide) rfl "ops@example.com" rfl (by decide)
  refine ⟨em, he, ?_, ?_⟩
  · rw [hs1 PyErr.typeValueErr rfl]; rfl
  · rw [hb2 "\\xZZ" PyErr.otherErr rfl rfl]

/-- C6: on a real transition with a transition config present, a configured
recipients list is joined with commas, the result is rendered against an
empty context, and when that rendering fails or yields an empty string the
notification is aborted with no email while the state update already made is
kept; when it yields a non-empty string, that exact string becomes the To
field of the email. -/
theorem recipients_rendering_and_abort (a : Alarm) (packet : Ctx) (t : String)
    (b p : Bool) (ps : OnParams)
    (h : a.state = PyVal.pyBool p) (hbp : b ≠ p)
    (hsel : (if b then a.on_true_params else a.on_false_params) = some ps) :
    (∀ l, ps.recipients = RecipVal.rlist l →
      rawRecipients ps = String.intercalate "," l) ∧
    ((eval_string (rawRecipients ps) [] = none ∨
      eval_string (rawRecipients ps) [] = some "") →
      assess a packet t (Except.ok (PyVal.pyBool b)) =
        ({ a with state := PyVal.pyBool b }, none)) ∧
    (∀ r, eval_string (rawRecipients ps) [] = some r → r ≠ "" →
      ∃ em, (assess a packet t (Except.ok (PyVal.pyBool b))).2 = some em ∧
        em.recipients = r) := by
  have hne : pyEq (PyVal.pyBool b) a.state = false := by
    rw [h]; simp [pyEq, hbp]
  have hns : ¬(a.state = PyVal.pyNone ∧ ps.suppress_first = true) := by
    rintro ⟨hx, _⟩; rw [h] at hx; exact PyVal.noConfusion hx
  refine ⟨?_, ?_, ?_⟩
  · intro l hl
    unfold rawRecipients
    rw [hl]
  · intro habort
    rw [assess_change_notify a packet t b ps hne hsel hns]
    exact notify_abort _ _ _ _ habort
  · intro r hr hrne
    rw [assess_change_notify a packet t b ps hne hsel hns,
        notify_email _ _ _ _ r hr hrne]
    exact ⟨_, rfl, rfl⟩

theorem recipients_rendering_and_abort_witness :
    rawRecipients psRecip = "a@x.com,b@y.com" ∧
    ∃ em, (assess alarmRecip [] "" (Except.ok (PyVal.pyBool true))).2 = some em ∧
      em.recipients = "a@x.com,b@y.com" := by
  have hthm := recipients_rendering_and_abort alarmRecip [] "" true false psRecip
    rfl (by decide) rfl
  exact ⟨(hthm.1 ["a@x.com", "b@y.com"] rfl).trans (by decide),
         hthm.2.2 "a@x.com,b@y.com" rfl (by decide)⟩

/-- C7: evidence for the code bug in `AlarmSvc.parse_alarm`.  The claim (and
the source's own intent, which logs a warning and returns None) is that an
alarm definition lacking a rule is skipped and parsing continues, with the
service going inert when no usable alarms remain; instead the warning
f-string references the unbound name `alarm_name`, so the constructor
propagates a NameError on such a configuration and never reaches the
inert path.  The absent-group and invalid-unit-system paths do leave the
service inert without registering, as claimed. -/
theorem missing_rule_crashes_constructor :
    svc_init (some cfgNoRule) = Except.error PyErr.nameErr ∧
    registers (svc_init (some cfgNoRule)) = false ∧
    svc_init none = Except.ok InitOutcome.noSection ∧
    registers (svc_init none) = false ∧
    svc_init (some cfgBadUnits) = Except.ok (InitOutcome.badUnits "MARTIAN") ∧
    registers (svc_init (some cfgBadUnits)) = false :=
  ⟨rfl, rfl, rfl, rfl, rfl, rfl⟩

/-- C9 counterexample: a relay that refuses the TCP connection makes
`smtplib.SMTP(server)` raise a ConnectionRefusedError, which is an OSError
and not an `smtplib.SMTPException`: `Mailer.send` neither logs it nor
catches it, and the exception leaves the call towards the Alarm — refuting
the claim that a mail-delivery failure is always logged and never surfaced
to the caller. -/
theorem mailer_send_exception_escape_counterexample :
    (Mailer.send mailerLocal "ops@example.com" "Subject" "Body"
      { connectRes := some MailErr.osErr, sendmailRes := none,
        quitRes := none }).raised = some MailErr.osErr ∧
    (Mailer.send mailerLocal "ops@example.com" "Subject" "Body"
      { connectRes := some MailErr.osErr, sendmailRes := none,
        quitRes := none }).errorLog = none :=
  ⟨rfl, rfl⟩

/-- C9 (amended): a delivery failure of the `smtplib.SMTPException` class
raised by connect or sendmail is logged together with the subject line and,
provided the finally-clause quit() does not itself raise, nothing reaches
the caller; the relay connection is released on exactly the exit paths on
which it was acquired; but a transport failure outside that class (an
OSError such as connection refused) propagates to the caller — unlogged
when raised by the connect call — and an exception from quit() inside the
finally clause propagates as well.  The alarm state is untouched by
construction: `Mailer.send` neither receives nor returns alarm state, and
`assess` computes its state update before the send. -/
theorem mailer_send_failure_contract (m : Mailer) (recipients subject body : String)
    (o : SmtpOutcome) :
    ((o.connectRes = some MailErr.smtpExc ∨
      (o.connectRes = none ∧ o.sendmailRes = some MailErr.smtpExc)) →
      (Mailer.send m recipients subject body o).delivered = false ∧
      (Mailer.send m recipients subject body o).errorLog =
        some ("SMTP send failed: " ++ subject)) ∧
    (o.connectRes = some MailErr.smtpExc →
      (Mailer.send m recipients subject body o).raised = none) ∧
    (o.connectRes = none → o.sendmailRes = some MailErr.smtpExc →
      o.quitRes = none →
      (Mailer.send m recipients subject body o).raised = none) ∧
    ((Mailer.send m recipients subject body o).quitCalled = o.connectRes.isNone) ∧
    (o.connectRes = some MailErr.osErr →
      (Mailer.send m recipients subject body o).raised = some MailErr.osErr ∧
      (Mailer.send m recipients subject body o).errorLog = none) ∧
    (o.connectRes = none → o.sendmailRes = some MailErr.osErr →
      o.quitRes = none →
      (Mailer.send m recipients subject body o).raised = some MailErr.osErr) ∧
    (∀ e, o.connectRes = none → o.quitRes = some e →
      (Mailer.send m recipients subject body o).raised = some e) ∧
    (o.connectRes = none → o.sendmailRes = none → o.quitRes = none →
      (Mailer.send m recipients subject body o).delivered = true ∧
      (Mailer.send m recipients subject body o).raised = none) := by
  obtain ⟨c, s, q⟩ := o
  cases c <;> cases s <;> cases q <;> (try casesm* MailErr) <;> simp [Mailer.send]

theorem mailer_send_failure_contract_witness :
    (Mailer.send mailerLocal "ops@example.com" "Subject" "Body"
      { connectRes := none, sendmailRes := some MailErr.smtpExc,
        quitRes := none }).errorLog = some ("SMTP send failed: " ++ "Subject") ∧
    (Mailer.send mailerLocal "ops@example.com" "Subject" "Body"
      { connectRes := none, sendmailRes := some MailErr.smtpExc,
        quitRes := none }).raised = none := by
  have h := mailer_send_failure_contract mailerLocal "ops@example.com" "Subject"
    "Body" { connectRes := none, sendmailRes := some MailErr.smtpExc,
             quitRes := none }
  exact ⟨(h.1 (Or.inr ⟨rfl, rfl⟩)).2, h.2.2.1 rfl rfl rfl⟩
